import Mathlib

/-!
A shallow embedding of the conversational orchestration layer from
`src/assistant/assistant.py`.

Capture side (`MyAudioCaptureEventHandler`): the conversation state machine
driven by local keyword/VAD callbacks (`on_keyword_detected`,
`on_speech_start`, `on_speech_end`, `send_audio_data`) together with the
silence timer (`_start_silence_timer`, `_cancel_silence_timer`,
`_silence_timer_coroutine`, `_reset_state_due_to_silence`, `_set_state`).
Calls into the external collaborators (the realtime client's
`send_audio`/`send_text`/`generate_response`/`clear_input_audio_buffer`/
`cancel_response` and the audio player's `drain_and_restart`) are modelled
as emitted effects.  An armed timer is a live asyncio task
(`_silence_timer_task is not None and not _silence_timer_task.done()`);
cancellation delivers `CancelledError` at the `asyncio.sleep` await, so a
cancelled task never reaches `_reset_state_due_to_silence` — in the model a
fire step of an unarmed timer expands to nothing.  Each callback is modelled
atomically: its conditions are evaluated on the state at entry, and the
coroutines it schedules on the event loop run in scheduling order.

Realtime side (`MyRealtimeEventHandler`): the call-id-to-function-name
registry (a Python dict guarded by a lock, embedded as an association list
with dict insert/pop semantics), `on_response_output_item_added`,
`on_response_function_call_arguments_done` (the tool collaborator's
`execute` is an outcome-valued parameter: success, `json.JSONDecodeError`,
or any other exception), and `handle_audio_delta` (the base64 decoder is a
result-valued parameter).  A `raised` boolean records whether an uncaught
exception propagates out of the handler coroutine.
-/

namespace AlfredAI

/-- The `ConversationState` enum of `assistant.py`. -/
inductive ConversationState where
  | IDLE
  | KEYWORD_DETECTED
  | CONVERSATION_ACTIVE
deriving DecidableEq, Repr

/-- The mutable state owned by `MyAudioCaptureEventHandler`: the current
conversation state and whether a live silence-timer task exists. -/
structure CaptureState where
  state : ConversationState
  timerArmed : Bool
deriving DecidableEq, Repr

/-- A call issued to an external collaborator (the realtime client or the
audio player). -/
inductive Effect where
  | sendAudio (data : List Nat)
  | sendText (msg : String)
  | generateResponse
  | clearInputAudioBuffer
  | cancelResponse
  | drainAndRestart
deriving DecidableEq, Repr

/-- `_cancel_silence_timer`: if a live (not yet done) timer task exists,
cancel it, await its completion and clear the field; otherwise do nothing.
The boolean records whether a cancellation was issued. -/
def cancel_silence_timer (cs : CaptureState) : CaptureState × Bool :=
  if cs.timerArmed = true then ({ cs with timerArmed := false }, true) else (cs, false)

/-- `_start_silence_timer`: cancel any existing timer task, then create a
fresh `_silence_timer_coroutine` task. -/
def start_silence_timer (cs : CaptureState) : CaptureState :=
  { (cancel_silence_timer cs).1 with timerArmed := true }

/-- `_set_state`: record the new conversation state; entering any state
other than `CONVERSATION_ACTIVE` then cancels any pending silence timer. -/
def set_state (cs : CaptureState) (newState : ConversationState) : CaptureState :=
  let cs1 : CaptureState := { cs with state := newState }
  if newState ≠ ConversationState.CONVERSATION_ACTIVE then (cancel_silence_timer cs1).1 else cs1

/-- One primitive step performed on the event loop: a `_set_state` call, a
timer arm or cancel, the silence-timer task completing, or a call emitted to
an external collaborator. -/
inductive MicroOp where
  | setState (s : ConversationState)
  | startTimer
  | cancelTimer
  | taskDone
  | emit (e : Effect)
deriving DecidableEq, Repr

/-- Effect of one primitive step on the capture-handler state. -/
def applyMicro (cs : CaptureState) : MicroOp → CaptureState
  | MicroOp.setState s => set_state cs s
  | MicroOp.startTimer => start_silence_timer cs
  | MicroOp.cancelTimer => (cancel_silence_timer cs).1
  | MicroOp.taskDone => { cs with timerArmed := false }
  | MicroOp.emit _ => cs

/-- Run a list of primitive steps in order. -/
def runMicros (cs : CaptureState) : List MicroOp → CaptureState
  | [] => cs
  | m :: ms => runMicros (applyMicro cs m) ms

/-- The calls to external collaborators contained in a list of primitive
steps, in order. -/
def effectsOf (ms : List MicroOp) : List Effect :=
  ms.filterMap (fun m =>
    match m with
    | MicroOp.emit e => some e
    | _ => none)

/-- Readings of the external collaborators consulted by the capture
handler: `self._client.options.turn_detection is None`,
`self._event_handler.is_audio_playing()` and
`self._event_handler.is_function_processing()`. -/
structure Env where
  turnDetectionNone : Bool
  isAudioPlaying : Bool
  isFunctionProcessing : Bool
deriving DecidableEq, Repr

/-- A top-level event arriving at the capture handler: a raw-audio chunk, a
local-VAD speech start or end, a keyword detection, or the silence timer's
timeout elapsing. -/
inductive CaptureOp where
  | sendAudioData (data : List Nat)
  | speechStart
  | speechEnd
  | keywordDetected
  | silenceFire
deriving DecidableEq, Repr

/-- `send_audio_data`: forward the audio to the client's `send_audio` only
when the conversation state is `CONVERSATION_ACTIVE`. -/
def send_audio_data (cs : CaptureState) (audio : List Nat) : CaptureState × List Effect :=
  if cs.state = ConversationState.CONVERSATION_ACTIVE then
    (cs, [Effect.sendAudio audio])
  else
    (cs, [])

/-- Expansion of one capture-handler event into the primitive steps it
performs, with its conditions evaluated on the state at entry.

`speechStart` (`on_speech_start`): when the state is `KEYWORD_DETECTED` or
`CONVERSATION_ACTIVE`, schedule `_set_state(CONVERSATION_ACTIVE)` and
`_cancel_silence_timer`; when local turn detection is in use, audio is
playing and the state is `CONVERSATION_ACTIVE`, issue the barge-in calls
(`clear_input_audio_buffer`, `cancel_response`, `drain_and_restart`).

`speechEnd` (`on_speech_end`): in `CONVERSATION_ACTIVE` with local turn
detection, request `generate_response` and start the silence timer.

`keywordDetected` (`on_keyword_detected`): send the greeting, transition to
`KEYWORD_DETECTED`, start the silence timer.

`silenceFire` (`_silence_timer_coroutine` reaching its timeout): only a
live task can fire; `_reset_state_due_to_silence` then re-arms the timer
when audio is playing or a function is processing, and otherwise clears the
input buffer, lets the task finish and schedules `_set_state(IDLE)`. -/
def expand (env : Env) (cs : CaptureState) : CaptureOp → List MicroOp
  | CaptureOp.sendAudioData d => (send_audio_data cs d).2.map MicroOp.emit
  | CaptureOp.speechStart =>
      (if cs.state = ConversationState.KEYWORD_DETECTED ∨
          cs.state = ConversationState.CONVERSATION_ACTIVE then
        [MicroOp.setState ConversationState.CONVERSATION_ACTIVE, MicroOp.cancelTimer]
      else []) ++
      (if env.turnDetectionNone = true ∧ env.isAudioPlaying = true ∧
          cs.state = ConversationState.CONVERSATION_ACTIVE then
        [MicroOp.emit Effect.clearInputAudioBuffer,
         MicroOp.emit Effect.cancelResponse,
         MicroOp.emit Effect.drainAndRestart]
      else [])
  | CaptureOp.speechEnd =>
      if cs.state = ConversationState.CONVERSATION_ACTIVE ∧ env.turnDetectionNone = true then
        [MicroOp.emit Effect.generateResponse, MicroOp.startTimer]
      else []
  | CaptureOp.keywordDetected =>
      [MicroOp.emit (Effect.sendText "Hello"),
       MicroOp.setState ConversationState.KEYWORD_DETECTED,
       MicroOp.startTimer]
  | CaptureOp.silenceFire =>
      if cs.timerArmed = true then
        if env.isAudioPlaying = true ∨ env.isFunctionProcessing = true then
          [MicroOp.startTimer]
        else
          [MicroOp.emit Effect.clearInputAudioBuffer, MicroOp.taskDone,
           MicroOp.setState ConversationState.IDLE]
      else []

/-- The flattened primitive-step trace of a sequence of capture-handler
events, each paired with the collaborator readings at its arrival. -/
def opsMicros (cs : CaptureState) : List (Env × CaptureOp) → List MicroOp
  | [] => []
  | (env, op) :: rest =>
      let ms := expand env cs op
      ms ++ opsMicros (runMicros cs ms) rest

/-- Run a sequence of capture-handler events. -/
def runOps (cs : CaptureState) (ops : List (Env × CaptureOp)) : CaptureState :=
  runMicros cs (opsMicros cs ops)

theorem cancel_timerArmed (cs : CaptureState) :
    (cancel_silence_timer cs).1.timerArmed = false := by
  unfold cancel_silence_timer
  split <;> simp_all

theorem cancel_state (cs : CaptureState) :
    (cancel_silence_timer cs).1.state = cs.state := by
  unfold cancel_silence_timer
  split <;> rfl

theorem set_state_not_active_timer (cs : CaptureState) (s : ConversationState)
    (hs : s ≠ ConversationState.CONVERSATION_ACTIVE) :
    (set_state cs s).timerArmed = false := by
  unfold set_state
  rw [if_pos hs]
  exact cancel_timerArmed _

theorem runMicros_append (cs : CaptureState) (a b : List MicroOp) :
    runMicros cs (a ++ b) = runMicros (runMicros cs a) b := by
  induction a generalizing cs with
  | nil => rfl
  | cons m ms ih => simp [runMicros, ih]

/-- C1: for every sequence of capture-handler operations, immediately after
any `_set_state` transition into a state other than `CONVERSATION_ACTIVE`
in its primitive-step trace, the silence timer is not armed — every entry
into `IDLE` or `KEYWORD_DETECTED` cancels any pending silence timer. -/
theorem c1_transition_not_active_disarms
    (cs0 : CaptureState) (ops : List (Env × CaptureOp))
    (pre suf : List MicroOp) (s : ConversationState)
    (hsplit : opsMicros cs0 ops = pre ++ MicroOp.setState s :: suf)
    (hs : s ≠ ConversationState.CONVERSATION_ACTIVE) :
    (runMicros cs0 (pre ++ [MicroOp.setState s])).timerArmed = false := by
  rw [runMicros_append]
  simpa [runMicros, applyMicro] using set_state_not_active_timer (runMicros cs0 pre) s hs

/-- Witness for C1: a keyword detection from the idle state produces a trace
whose `_set_state(KEYWORD_DETECTED)` step leaves the timer unarmed. -/
theorem c1_witness :
    opsMicros ⟨ConversationState.IDLE, false⟩
        [(⟨true, false, false⟩, CaptureOp.keywordDetected)] =
      [MicroOp.emit (Effect.sendText "Hello")] ++
        MicroOp.setState ConversationState.KEYWORD_DETECTED :: [MicroOp.startTimer] ∧
    (runMicros ⟨ConversationState.IDLE, false⟩
        ([MicroOp.emit (Effect.sendText "Hello")] ++
          [MicroOp.setState ConversationState.KEYWORD_DETECTED])).timerArmed = false :=
  ⟨by decide, c1_transition_not_active_disarms ⟨ConversationState.IDLE, false⟩
      [(⟨true, false, false⟩, CaptureOp.keywordDetected)]
      [MicroOp.emit (Effect.sendText "Hello")] [MicroOp.startTimer]
      ConversationState.KEYWORD_DETECTED (by decide) (by decide)⟩

/-- C4: when the silence timer fires with audio playing or a function call
processing, the timer is re-armed and the conversation state is unchanged
(no collaborator calls are issued); otherwise the session's input audio
buffer is cleared and the state transitions to `IDLE` with the timer
disarmed. -/
theorem c4_silence_fired (cs : CaptureState) (env : Env)
    (h : cs.timerArmed = true) :
    ((env.isAudioPlaying = true ∨ env.isFunctionProcessing = true) →
      (runMicros cs (expand env cs CaptureOp.silenceFire)).timerArmed = true ∧
      (runMicros cs (expand env cs CaptureOp.silenceFire)).state = cs.state ∧
      effectsOf (expand env cs CaptureOp.silenceFire) = []) ∧
    (¬(env.isAudioPlaying = true ∨ env.isFunctionProcessing = true) →
      (runMicros cs (expand env cs CaptureOp.silenceFire)).state = ConversationState.IDLE ∧
      (runMicros cs (expand env cs CaptureOp.silenceFire)).timerArmed = false ∧
      effectsOf (expand env cs CaptureOp.silenceFire) = [Effect.clearInputAudioBuffer]) := by
  constructor
  · intro hp
    unfold expand
    rw [if_pos h, if_pos hp]
    refine ⟨rfl, ?_, rfl⟩
    show (start_silence_timer cs).state = cs.state
    simp [start_silence_timer, cancel_state]
  · intro hp
    unfold expand
    rw [if_pos h, if_neg hp]
    refine ⟨?_, ?_, rfl⟩
    · show (set_state { cs with timerArmed := false } ConversationState.IDLE).state =
        ConversationState.IDLE
      simp [set_state, cancel_state]
    · exact set_state_not_active_timer _ _ (by decide)

/-- Witness for C4: an armed timer firing while audio plays leaves the state
in place and re-arms; an armed timer firing with nothing playing resets to
`IDLE` after clearing the input buffer. -/
theorem c4_witness :
    (⟨ConversationState.CONVERSATION_ACTIVE, true⟩ : CaptureState).timerArmed = true ∧
    ((((⟨true, true, false⟩ : Env).isAudioPlaying = true ∨
        (⟨true, true, false⟩ : Env).isFunctionProcessing = true) →
      (runMicros ⟨ConversationState.CONVERSATION_ACTIVE, true⟩
        (expand ⟨true, true, false⟩ ⟨ConversationState.CONVERSATION_ACTIVE, true⟩
          CaptureOp.silenceFire)).timerArmed = true ∧
      (runMicros ⟨ConversationState.CONVERSATION_ACTIVE, true⟩
        (expand ⟨true, true, false⟩ ⟨ConversationState.CONVERSATION_ACTIVE, true⟩
          CaptureOp.silenceFire)).state =
        (⟨ConversationState.CONVERSATION_ACTIVE, true⟩ : CaptureState).state ∧
      effectsOf (expand ⟨true, true, false⟩ ⟨ConversationState.CONVERSATION_ACTIVE, true⟩
        CaptureOp.silenceFire) = []) ∧
    (¬((⟨true, true, false⟩ : Env).isAudioPlaying = true ∨
        (⟨true, true, false⟩ : Env).isFunctionProcessing = true) →
      (runMicros ⟨ConversationState.CONVERSATION_ACTIVE, true⟩
        (expand ⟨true, true, false⟩ ⟨ConversationState.CONVERSATION_ACTIVE, true⟩
          CaptureOp.silenceFire)).state = ConversationState.IDLE ∧
      (runMicros ⟨ConversationState.CONVERSATION_ACTIVE, true⟩
        (expand ⟨true, true, false⟩ ⟨ConversationState.CONVERSATION_ACTIVE, true⟩
          CaptureOp.silenceFire)).timerArmed = false ∧
      effectsOf (expand ⟨true, true, false⟩ ⟨ConversationState.CONVERSATION_ACTIVE, true⟩
        CaptureOp.silenceFire) = [Effect.clearInputAudioBuffer])) :=
  ⟨rfl, c4_silence_fired ⟨ConversationState.CONVERSATION_ACTIVE, true⟩ ⟨true, true, false⟩ rfl⟩

/-- C5: `on_speech_start` issues the barge-in calls — clear the input audio
buffer, cancel the in-flight response and drain-and-restart playback —
exactly when the session uses local turn detection, the assistant is
playing audio and the state is `CONVERSATION_ACTIVE`; otherwise it issues
no collaborator calls at all. -/
theorem c5_barge_in (cs : CaptureState) (env : Env) :
    effectsOf (expand env cs CaptureOp.speechStart) =
      if env.turnDetectionNone = true ∧ env.isAudioPlaying = true ∧
          cs.state = ConversationState.CONVERSATION_ACTIVE then
        [Effect.clearInputAudioBuffer, Effect.cancelResponse, Effect.drainAndRestart]
      else [] := by
  unfold expand effectsOf
  rw [List.filterMap_append]
  split <;> split <;> simp_all

/-- C6: a cancelled silence timer never fires.  From any state in which a
speech start cancels the timer (`KEYWORD_DETECTED` or
`CONVERSATION_ACTIVE`), after `on_speech_start` the timer is unarmed, the
timeout elapsing expands to no step at all (`_reset_state_due_to_silence`
is never invoked for that arm/fire cycle), and appending the fire event
changes nothing. -/
theorem c6_cancelled_timer_never_fires (cs : CaptureState) (env1 env2 : Env)
    (h : cs.state = ConversationState.KEYWORD_DETECTED ∨
         cs.state = ConversationState.CONVERSATION_ACTIVE) :
    (runOps cs [(env1, CaptureOp.speechStart)]).timerArmed = false ∧
    expand env2 (runOps cs [(env1, CaptureOp.speechStart)]) CaptureOp.silenceFire = [] ∧
    runOps cs [(env1, CaptureOp.speechStart), (env2, CaptureOp.silenceFire)] =
      runOps cs [(env1, CaptureOp.speechStart)] := by
  have hrun : runOps cs [(env1, CaptureOp.speechStart)] =
      ⟨ConversationState.CONVERSATION_ACTIVE, false⟩ := by
    rcases cs with ⟨s, armed⟩
    rcases h with h | h <;> subst h <;> cases armed <;>
      simp [runOps, opsMicros, expand, runMicros, applyMicro, set_state,
        cancel_silence_timer] <;>
      split <;>
      simp [runMicros, applyMicro, set_state, cancel_silence_timer]
  have hexp : expand env2 (runOps cs [(env1, CaptureOp.speechStart)]) CaptureOp.silenceFire
      = [] := by
    rw [hrun]
    simp [expand]
  refine ⟨by rw [hrun], hexp, ?_⟩
  show runMicros cs
      (opsMicros cs [(env1, CaptureOp.speechStart), (env2, CaptureOp.silenceFire)]) =
    runOps cs [(env1, CaptureOp.speechStart)]
  simp only [opsMicros]
  have h1 : runMicros cs (expand env1 cs CaptureOp.speechStart) =
      runOps cs [(env1, CaptureOp.speechStart)] := by
    simp [runOps, opsMicros, runMicros_append]
  rw [h1, hexp]
  simp [runMicros_append, h1, runMicros]

/-- Witness for C6: a timer armed in `KEYWORD_DETECTED` that is cancelled by
a speech start does not fire afterwards. -/
theorem c6_witness :
    ((⟨ConversationState.KEYWORD_DETECTED, true⟩ : CaptureState).state =
        ConversationState.KEYWORD_DETECTED ∨
      (⟨ConversationState.KEYWORD_DETECTED, true⟩ : CaptureState).state =
        ConversationState.CONVERSATION_ACTIVE) ∧
    (runOps ⟨ConversationState.KEYWORD_DETECTED, true⟩
        [(⟨true, false, false⟩, CaptureOp.speechStart)]).timerArmed = false ∧
    expand ⟨true, false, false⟩
        (runOps ⟨ConversationState.KEYWORD_DETECTED, true⟩
          [(⟨true, false, false⟩, CaptureOp.speechStart)]) CaptureOp.silenceFire = [] ∧
    runOps ⟨ConversationState.KEYWORD_DETECTED, true⟩
        [(⟨true, false, false⟩, CaptureOp.speechStart),
         (⟨true, false, false⟩, CaptureOp.silenceFire)] =
      runOps ⟨ConversationState.KEYWORD_DETECTED, true⟩
        [(⟨true, false, false⟩, CaptureOp.speechStart)] :=
  ⟨Or.inl rfl, c6_cancelled_timer_never_fires ⟨ConversationState.KEYWORD_DETECTED, true⟩
      ⟨true, false, false⟩ ⟨true, false, false⟩ (Or.inl rfl)⟩

/-- C8: `_cancel_silence_timer` on an unarmed timer (no live timer task) is
a no-op that issues no cancellation, and so is a second call immediately
after. -/
theorem c8_cancel_idempotent_unarmed (cs : CaptureState)
    (h : cs.timerArmed = false) :
    cancel_silence_timer cs = (cs, false) ∧
    cancel_silence_timer (cancel_silence_timer cs).1 = (cs, false) := by
  have h1 : cancel_silence_timer cs = (cs, false) := by
    unfold cancel_silence_timer
    simp [h]
  exact ⟨h1, by rw [h1]; exact h1⟩

/-- Witness for C8: double cancel on the initial, unarmed handler state. -/
theorem c8_witness :
    (⟨ConversationState.IDLE, false⟩ : CaptureState).timerArmed = false ∧
    cancel_silence_timer ⟨ConversationState.IDLE, false⟩ =
      (⟨ConversationState.IDLE, false⟩, false) ∧
    cancel_silence_timer (cancel_silence_timer ⟨ConversationState.IDLE, false⟩).1 =
      (⟨ConversationState.IDLE, false⟩, false) :=
  ⟨rfl, c8_cancel_idempotent_unarmed ⟨ConversationState.IDLE, false⟩ rfl⟩

/-- C9: `send_audio_data` never changes the handler state, and forwards the
audio bytes to the client's `send_audio` exactly when the conversation
state is `CONVERSATION_ACTIVE` — in `IDLE` or `KEYWORD_DETECTED` nothing is
forwarded. -/
theorem c9_send_audio_only_when_active (cs : CaptureState) (audio : List Nat) :
    (send_audio_data cs audio).1 = cs ∧
    (send_audio_data cs audio).2 =
      (if cs.state = ConversationState.CONVERSATION_ACTIVE then
        [Effect.sendAudio audio]
      else []) := by
  unfold send_audio_data
  split <;> simp_all

/-- Python truthiness of an optional string: `None` and the empty string
are falsy. -/
def truthy : Option String → Bool
  | none => false
  | some s => !(s == "")

/-- Lookup in a Python dict embedded as an association list. -/
def dictLookup : List (String × String) → String → Option String
  | [], _ => none
  | p :: rest, k => if p.1 = k then some p.2 else dictLookup rest k

/-- Python dict assignment `d[k] = v`: overwrite the value at an existing
key, otherwise append the binding. -/
def dictInsert : List (String × String) → String → String → List (String × String)
  | [], k, v => [(k, v)]
  | p :: rest, k, v => if p.1 = k then (p.1, v) :: rest else p :: dictInsert rest k v

/-- Python `d.pop(k, None)`: return the stored value (or `none`) and the
dict with the key removed — the `resolveAndRemove` operation performed
under the handler's lock. -/
def dictPop (d : List (String × String)) (k : String) :
    Option String × List (String × String) :=
  (dictLookup d k, d.filter (fun p => !(p.1 == k)))

/-- The mutable state owned by `MyRealtimeEventHandler`: the playback
cursor, the call-id-to-function-name registry and the function-processing
flag. -/
structure RealtimeState where
  current_item_id : Option String
  current_audio_content_index : Option Nat
  call_id_to_function_name : List (String × String)
  function_processing : Bool
deriving DecidableEq, Repr

/-- Calls issued by the realtime handler to its collaborators, and its
warning/error log lines. -/
inductive REffect where
  | enqueueAudio (data : List Nat)
  | logWarning (msg : String)
  | logError (msg : String)
  | generate_response_from_function_call (callId output : String)
deriving DecidableEq, Repr

/-- The fields of a `ResponseOutputItemAdded` event's `item` payload that
`on_response_output_item_added` reads. -/
structure OutputItem where
  itemType : Option String
  call_id : Option String
  name : Option String
deriving DecidableEq, Repr

/-- `on_response_output_item_added`: for a `function_call` item with truthy
`call_id` and `name`, register the mapping in the dict under the lock;
otherwise warn about the missing fields.  Non-function-call items have no
effect. -/
def on_response_output_item_added (st : RealtimeState) (item : OutputItem) :
    RealtimeState × List REffect :=
  if item.itemType = some "function_call" then
    if truthy item.call_id && truthy item.name then
      ({ st with call_id_to_function_name :=
          dictInsert st.call_id_to_function_name (item.call_id.getD "") (item.name.getD "") },
       [])
    else
      (st, [REffect.logWarning "Function call item missing fields"])
  else
    (st, [])

/-- Outcome of the external tool collaborator's `execute(functionName,
argumentsJson)`: a result string, a `json.JSONDecodeError`, or any other
exception. -/
inductive ExecOutcome where
  | ok (output : String)
  | jsonDecodeError
  | otherError
deriving DecidableEq, Repr

/-- Result of running `on_response_function_call_arguments_done`: the
post-state, the collaborator calls and error logs it issued, and whether an
uncaught exception propagates out of the coroutine. -/
structure DoneResult where
  state : RealtimeState
  effects : List REffect
  raised : Bool
deriving DecidableEq, Repr

/-- `on_response_function_call_arguments_done`: pop the call id from the
registry under the lock; a missing (or falsy) function name is logged and
aborts the call.  Otherwise set the function-processing flag, run the tool
collaborator's `execute` off-thread and forward its output via
`generate_response_from_function_call`; `json.JSONDecodeError` is caught and
logged, the `finally` block clears the flag in every case, and any other
exception propagates out of the coroutine uncaught. -/
def on_response_function_call_arguments_done
    (execute : String → String → ExecOutcome)
    (st : RealtimeState) (call_id arguments : String) : DoneResult :=
  let popped := dictPop st.call_id_to_function_name call_id
  let st1 : RealtimeState := { st with call_id_to_function_name := popped.2 }
  match popped.1 with
  | none =>
      { state := st1,
        effects := [REffect.logError "No function name found for call ID"],
        raised := false }
  | some function_name =>
      if function_name = "" then
        { state := st1,
          effects := [REffect.logError "No function name found for call ID"],
          raised := false }
      else
        match execute function_name arguments with
        | ExecOutcome.ok function_output =>
            { state := { st1 with function_processing := false },
              effects :=
                [REffect.generate_response_from_function_call call_id function_output],
              raised := false }
        | ExecOutcome.jsonDecodeError =>
            { state := { st1 with function_processing := false },
              effects := [REffect.logError "Failed to parse arguments"],
              raised := false }
        | ExecOutcome.otherError =>
            { state := { st1 with function_processing := false },
              effects := [],
              raised := true }

/-- `handle_audio_delta`: on a truthy `delta` payload, base64-decode it and
enqueue the bytes to the audio player; a `binascii.Error` is caught and
logged and the fragment dropped.  A missing payload is only a warning.  The
final boolean records whether an exception escapes the handler (it never
does). -/
def handle_audio_delta (b64decode : String → Except String (List Nat))
    (st : RealtimeState) (delta : Option String) :
    RealtimeState × List REffect × Bool :=
  if truthy delta then
    match b64decode (delta.getD "") with
    | Except.ok audio_bytes => (st, [REffect.enqueueAudio audio_bytes], false)
    | Except.error _ => (st, [REffect.logError "Failed to decode audio delta"], false)
  else
    (st, [REffect.logWarning "Received ResponseAudioDelta event without delta field"], false)

/-- The fields of a `ResponseAudioDelta` event read by the handler. -/
structure AudioDeltaEvent where
  item_id : Option String
  content_index : Option Nat
  delta : Option String
deriving DecidableEq, Repr

/-- `on_response_audio_delta`: update the playback cursor, then route the
fragment through `handle_audio_delta`. -/
def on_response_audio_delta (b64decode : String → Except String (List Nat))
    (st : RealtimeState) (event : AudioDeltaEvent) :
    RealtimeState × List REffect × Bool :=
  handle_audio_delta b64decode
    { st with current_item_id := event.item_id,
              current_audio_content_index := event.content_index }
    event.delta

theorem dictLookup_dictInsert_self (d : List (String × String)) (k v : String) :
    dictLookup (dictInsert d k v) k = some v := by
  induction d with
  | nil => simp [dictInsert, dictLookup]
  | cons p rest ih =>
    by_cases h : p.1 = k
    · simp [dictInsert, dictLookup, h]
    · simp [dictInsert, dictLookup, h, ih]

theorem dictLookup_erase (d : List (String × String)) (k : String) :
    dictLookup (d.filter (fun p => !(p.1 == k))) k = none := by
  induction d with
  | nil => rfl
  | cons p rest ih =>
    by_cases h : p.1 = k <;> simp [List.filter_cons, h, dictLookup, ih]

theorem dictLookup_none_filter (d : List (String × String)) (k : String)
    (h : dictLookup d k = none) : d.filter (fun p => !(p.1 == k)) = d := by
  induction d with
  | nil => rfl
  | cons p rest ih =>
    by_cases hp : p.1 = k
    · simp [dictLookup, hp] at h
    · rw [dictLookup, if_neg hp] at h
      simp [List.filter_cons, hp, ih h]

theorem arguments_done_registry (execute : String → String → ExecOutcome)
    (st : RealtimeState) (call_id arguments : String) :
    (on_response_function_call_arguments_done execute st call_id arguments).state.call_id_to_function_name =
      (dictPop st.call_id_to_function_name call_id).2 := by
  unfold on_response_function_call_arguments_done
  rcases h : (dictPop st.call_id_to_function_name call_id).1 with _ | fn
  · simp [h]
  · simp only [h]
    split
    · rfl
    · rcases execute fn arguments <;> rfl

theorem arguments_done_notfound (execute : String → String → ExecOutcome)
    (st : RealtimeState) (call_id arguments : String)
    (h : dictLookup st.call_id_to_function_name call_id = none) :
    on_response_function_call_arguments_done execute st call_id arguments =
      { state := st,
        effects := [REffect.logError "No function name found for call ID"],
        raised := false } := by
  unfold on_response_function_call_arguments_done dictPop
  simp [h, dictLookup_none_filter _ _ h]

/-- C2 counterexample: an exception from the tool collaborator that is not
a `json.JSONDecodeError` is not caught at the dispatch boundary — it
propagates out of the event-handling coroutine and nothing is logged for
it, refuting the claim that every exception is caught and logged there. -/
theorem c2_counterexample :
    (on_response_function_call_arguments_done (fun _ _ => ExecOutcome.otherError)
        ⟨none, none, [("call-1", "fetch_weather")], false⟩ "call-1" "x").raised = true ∧
    (on_response_function_call_arguments_done (fun _ _ => ExecOutcome.otherError)
        ⟨none, none, [("call-1", "fetch_weather")], false⟩ "call-1" "x").effects = [] := by
  decide

/-- C2 amended: during dispatch of a resolved call the
`FunctionProcessingFlag` is cleared regardless of outcome and
`generate_response_from_function_call` is invoked only on success; a
`json.JSONDecodeError` is caught at the dispatch boundary and logged without
propagating, but any other exception from the tool collaborator's `execute`
propagates uncaught out of the event-handling coroutine. -/
theorem c2_amended_dispatch_boundary
    (execute : String → String → ExecOutcome) (st : RealtimeState)
    (callId fn args : String)
    (hreg : dictLookup st.call_id_to_function_name callId = some fn)
    (hfn : fn ≠ "") :
    (on_response_function_call_arguments_done execute st callId args).state.function_processing = false ∧
    (execute fn args = ExecOutcome.jsonDecodeError →
      (on_response_function_call_arguments_done execute st callId args).effects =
        [REffect.logError "Failed to parse arguments"] ∧
      (on_response_function_call_arguments_done execute st callId args).raised = false) ∧
    (execute fn args = ExecOutcome.otherError →
      (on_response_function_call_arguments_done execute st callId args).effects = [] ∧
      (on_response_function_call_arguments_done execute st callId args).raised = true) ∧
    (∀ output, execute fn args = ExecOutcome.ok output →
      (on_response_function_call_arguments_done execute st callId args).effects =
        [REffect.generate_response_from_function_call callId output] ∧
      (on_response_function_call_arguments_done execute st callId args).raised = false) := by
  unfold on_response_function_call_arguments_done dictPop
  simp only [hreg]
  rw [if_neg hfn]
  rcases hE : execute fn args with output | _ | _ <;> simp [hE]

/-- Witness for C2's amended claim: a decode failure on a registered call is
logged, does not propagate and leaves the flag cleared. -/
theorem c2_amended_witness :
    (on_response_function_call_arguments_done (fun _ _ => ExecOutcome.jsonDecodeError)
        ⟨none, none, [("call-1", "fetch_weather")], false⟩ "call-1" "x").state.function_processing = false ∧
    (on_response_function_call_arguments_done (fun _ _ => ExecOutcome.jsonDecodeError)
        ⟨none, none, [("call-1", "fetch_weather")], false⟩ "call-1" "x").effects =
      [REffect.logError "Failed to parse arguments"] ∧
    (on_response_function_call_arguments_done (fun _ _ => ExecOutcome.jsonDecodeError)
        ⟨none, none, [("call-1", "fetch_weather")], false⟩ "call-1" "x").raised = false := by
  obtain ⟨h1, h2, h3, h4⟩ :=
    c2_amended_dispatch_boundary (fun _ _ => ExecOutcome.jsonDecodeError)
      ⟨none, none, [("call-1", "fetch_weather")], false⟩ "call-1" "fetch_weather" "x"
      (by decide) (by decide)
  exact ⟨h1, (h2 rfl).1, (h2 rfl).2⟩

/-- C3: a registered call id is resolved exactly once — the first
`resolveAndRemove` returns the registered function name and removes the
mapping, a second resolve of the same call id returns `none`, and running
the arguments-done handler on an unregistered call id only logs the error
and aborts that call without raising, leaving the state unchanged. -/
theorem c3_exactly_once (execute : String → String → ExecOutcome)
    (st : RealtimeState) (callId fn args1 args2 : String)
    (hreg : dictLookup st.call_id_to_function_name callId = some fn) :
    (dictPop st.call_id_to_function_name callId).1 = some fn ∧
    (dictPop (dictPop st.call_id_to_function_name callId).2 callId).1 = none ∧
    dictLookup (on_response_function_call_arguments_done execute st callId args1).state.call_id_to_function_name callId = none ∧
    on_response_function_call_arguments_done execute
        (on_response_function_call_arguments_done execute st callId args1).state callId args2 =
      { state := (on_response_function_call_arguments_done execute st callId args1).state,
        effects := [REffect.logError "No function name found for call ID"],
        raised := false } := by
  have h2 : (dictPop (dictPop st.call_id_to_function_name callId).2 callId).1 = none := by
    simp [dictPop, dictLookup_erase]
  have h3 : dictLookup (on_response_function_call_arguments_done execute st callId args1).state.call_id_to_function_name callId = none := by
    rw [arguments_done_registry]
    simpa [dictPop] using h2
  exact ⟨by simpa [dictPop] using hreg, h2, h3,
    arguments_done_notfound execute _ callId args2 h3⟩

/-- Witness for C3: the spec's Scenario C with `call-1` mapped to
`fetch_current_datetime`. -/
theorem c3_witness :
    dictLookup [("call-1", "fetch_current_datetime")] "call-1" =
      some "fetch_current_datetime" ∧
    (dictPop [("call-1", "fetch_current_datetime")] "call-1").1 =
      some "fetch_current_datetime" ∧
    (dictPop (dictPop [("call-1", "fetch_current_datetime")] "call-1").2 "call-1").1 =
      none ∧
    dictLookup (on_response_function_call_arguments_done (fun _ _ => ExecOutcome.ok "out")
        ⟨none, none, [("call-1", "fetch_current_datetime")], false⟩ "call-1"
        "x").state.call_id_to_function_name "call-1" = none := by
  obtain ⟨h1, h2, h3, h4⟩ :=
    c3_exactly_once (fun _ _ => ExecOutcome.ok "out")
      ⟨none, none, [("call-1", "fetch_current_datetime")], false⟩ "call-1"
      "fetch_current_datetime" "x" "x" (by decide)
  exact ⟨by decide, h1, h2, h3⟩

/-- C7: one bad audio fragment never terminates the stream — when the
transport (base64) decode of a truthy delta fails, the error is logged, the
fragment is dropped (nothing is enqueued) and no exception escapes the
handler; when it succeeds, the decoded bytes are enqueued to the playback
sink. -/
theorem c7_audio_delta_isolation (b64decode : String → Except String (List Nat))
    (st : RealtimeState) (delta : String) (hd : delta ≠ "") :
    (∀ e, b64decode delta = Except.error e →
      handle_audio_delta b64decode st (some delta) =
        (st, [REffect.logError "Failed to decode audio delta"], false)) ∧
    (∀ audio_bytes, b64decode delta = Except.ok audio_bytes →
      handle_audio_delta b64decode st (some delta) =
        (st, [REffect.enqueueAudio audio_bytes], false)) := by
  constructor <;> intro x hx <;> simp [handle_audio_delta, truthy, hd, hx]

/-- Witness for C7: a fragment the decoder rejects is dropped with a logged
error, and one it accepts is enqueued. -/
theorem c7_witness :
    ("zz" : String) ≠ "" ∧
    handle_audio_delta (fun s => if s = "zz" then Except.error "Invalid base64" else Except.ok [0, 1])
        ⟨none, none, [], false⟩ (some "zz") =
      (⟨none, none, [], false⟩, [REffect.logError "Failed to decode audio delta"], false) :=
  ⟨by decide,
    (c7_audio_delta_isolation
        (fun s => if s = "zz" then Except.error "Invalid base64" else Except.ok [0, 1])
        ⟨none, none, [], false⟩ "zz" (by decide)).1 "Invalid base64" (by simp)⟩

/-- C10: registering a call id that is already present silently overwrites
the stored function name — neither registration emits a warning or error —
and a subsequent `resolveAndRemove` returns only the most recently
registered name. -/
theorem c10_reregister_overwrites (st : RealtimeState) (callId fn1 fn2 : String)
    (hc : callId ≠ "") (h1 : fn1 ≠ "") (h2 : fn2 ≠ "") :
    (on_response_output_item_added st ⟨some "function_call", some callId, some fn1⟩).2 = [] ∧
    (on_response_output_item_added
        (on_response_output_item_added st ⟨some "function_call", some callId, some fn1⟩).1
        ⟨some "function_call", some callId, some fn2⟩).2 = [] ∧
    dictLookup
        (on_response_output_item_added
          (on_response_output_item_added st ⟨some "function_call", some callId, some fn1⟩).1
          ⟨some "function_call", some callId, some fn2⟩).1.call_id_to_function_name callId =
      some fn2 ∧
    (dictPop
        (on_response_output_item_added
          (on_response_output_item_added st ⟨some "function_call", some callId, some fn1⟩).1
          ⟨some "function_call", some callId, some fn2⟩).1.call_id_to_function_name callId).1 =
      some fn2 := by
  refine ⟨?_, ?_, ?_, ?_⟩ <;>
    simp [on_response_output_item_added, truthy, hc, h1, h2, dictPop,
      dictLookup_dictInsert_self]

/-- Witness for C10: re-registering `call-1` replaces the stored name. -/
theorem c10_witness :
    ("call-1" : String) ≠ "" ∧ ("fetch_weather" : String) ≠ "" ∧
    ("fetch_current_datetime" : String) ≠ "" ∧
    dictLookup
        (on_response_output_item_added
          (on_response_output_item_added ⟨none, none, [], false⟩
            ⟨some "function_call", some "call-1", some "fetch_weather"⟩).1
          ⟨some "function_call", some "call-1", some "fetch_current_datetime"⟩).1.call_id_to_function_name
        "call-1" = some "fetch_current_datetime" :=
  ⟨by decide, by decide, by decide,
    (c10_reregister_overwrites ⟨none, none, [], false⟩ "call-1" "fetch_weather"
        "fetch_current_datetime" (by decide) (by decide) (by decide)).2.2.1⟩

end AlfredAI
